import Mathlib

/-!
Verification of the day-planner core logic (`dayplanner.py`): task
categorization (`prioritize_tasks`), sequential schedule allocation
(`create_schedule`), and the append-only history log
(`save_schedule` / `load_schedule_history`).

Times are modelled as minutes (`Nat`): a `datetime` value truncated to
minute precision is a count of minutes since an epoch; adding a
`timedelta(minutes=d)` is `+ d`; `strftime("%I:%M %p")` depends only on
the minutes-within-day component.
-/

namespace DayPlanner

/-- One of the three fixed priority buckets offered by the radio widget
in `prioritize_tasks` (`["Urgent", "Important", "Nice-to-Have"]`). -/
inductive Category
  | Urgent
  | Important
  | NiceToHave
deriving DecidableEq, Repr

/-- The dict `{"Urgent": [], "Important": [], "Nice-to-Have": []}`
built by `prioritize_tasks`. -/
structure CategorizedTasks where
  urgent : List String
  important : List String
  niceToHave : List String
deriving DecidableEq, Repr

/-- The initial empty buckets of `prioritize_tasks` (line 149). -/
def emptyBuckets : CategorizedTasks := ⟨[], [], []⟩

/-- `categorized_tasks[category].append(task)` (line 157). -/
def addToBucket (b : CategorizedTasks) (c : Category) (t : String) : CategorizedTasks :=
  match c with
  | .Urgent => { b with urgent := b.urgent ++ [t] }
  | .Important => { b with important := b.important ++ [t] }
  | .NiceToHave => { b with niceToHave := b.niceToHave ++ [t] }

/-- `prioritize_tasks` (lines 141-158): walk the submitted tasks in order;
for each, the radio widget keyed by `f"{task}_category"` yields a bucket
choice, and the task is appended to that bucket.  Because the widget key
is the task string itself, the choice is a function of the task string:
`choice : String → Category`. -/
def prioritize_tasks (tasks : List String) (choice : String → Category) : CategorizedTasks :=
  tasks.foldl (fun acc t => addToBucket acc (choice t) t) emptyBuckets

/-- Zero-padding to two digits, as `strftime` does for `%I`, `%M`, `%m`, `%d`. -/
def pad2 (n : Nat) : String :=
  if n < 10 then "0" ++ toString n else toString n

/-- Zero-padding to four digits, as `strftime` does for `%Y`. -/
def pad4 (n : Nat) : String :=
  if n < 10 then "000" ++ toString n
  else if n < 100 then "00" ++ toString n
  else if n < 1000 then "0" ++ toString n
  else toString n

/-- `time_slot.strftime("%I:%M %p")` (line 185) on a minute count `t`:
12-hour zero-padded hour (`00` → `12`, `13` → `01`), zero-padded minute,
then `AM` for hours 0-11 and `PM` for hours 12-23. -/
def formatTime12 (t : Nat) : String :=
  let hour := t / 60 % 24
  let minute := t % 60
  let h12 := hour % 12
  let dh := if h12 = 0 then 12 else h12
  pad2 dh ++ ":" ++ pad2 minute ++ " " ++ (if hour < 12 then "AM" else "PM")

/-- `datetime.datetime.utcnow().strftime("%Y-%m-%d")` (line 104) on a
calendar date (year, month, day). -/
def formatDate (y m d : Nat) : String :=
  pad4 y ++ "-" ++ pad2 m ++ "-" ++ pad2 d

/-- What one iteration of the scheduling loop (lines 176-192) records for
one task: the cursor value when the slot was made (`start`), the formatted
string stored in the schedule (`timeStr`), the task, and whether the
notification branch fired (`notified`). -/
structure SlotInfo where
  start : Nat
  timeStr : String
  task : String
  notified : Bool
deriving DecidableEq, Repr

/-- The inner scheduling loop of `create_schedule` (lines 176-192): for
each task in order, record `(time_slot, task)`, fire a notification iff
`time_slot - timedelta(minutes=5) > utcnow()`, then advance
`time_slot += timedelta(minutes=duration)`.  The duration slider is keyed
by `f"{task}_duration"`, so the duration is a function of the task
string.  `current` is the `utcnow()` the reminder check compares against. -/
def schedule_loop (dur : String → Nat) (current : Nat) :
    List String → Nat → List SlotInfo
  | [], _ => []
  | task :: rest, cursor =>
    { start := cursor
      timeStr := formatTime12 cursor
      task := task
      notified := decide ((cursor : Int) - 5 > (current : Int)) }
      :: schedule_loop dur current rest (cursor + dur task)

/-- `create_schedule` (lines 161-196), slot-level view: the cursor starts
at `now.replace(hour=8, minute=0)` — 08:00 on `now`'s day, i.e.
`now / 1440 * 1440 + 8 * 60` minutes — and the buckets are walked in the
fixed order Urgent, Important, Nice-to-Have (line 175), which is the
concatenation of the three bucket lists. -/
def create_schedule_slots (cat : CategorizedTasks) (dur : String → Nat)
    (now : Nat) : List SlotInfo :=
  schedule_loop dur now (cat.urgent ++ cat.important ++ cat.niceToHave)
    (now / 1440 * 1440 + 8 * 60)

/-- The `schedule` list built by `create_schedule`: pairs
`(time_str, task)` (line 186). -/
def create_schedule (cat : CategorizedTasks) (dur : String → Nat)
    (now : Nat) : List (String × String) :=
  (create_schedule_slots cat dur now).map (fun s => (s.timeStr, s.task))

/-- One entry of the history log: `{"date": ..., "tasks": schedule}`
(lines 103-106). -/
structure HistoryRecord where
  date : String
  tasks : List (String × String)
deriving DecidableEq, Repr

/-- The state of the history file: absent (`none`), present and parseable
as a JSON array of records (`valid`), or present but unparseable
(`corrupt`, where `json.load` raises). -/
inductive FileContent
  | valid (records : List HistoryRecord)
  | corrupt
deriving DecidableEq, Repr

/-- `load_schedule_history` (lines 112-125): if the file exists, parse it
(raising on corrupt contents); otherwise return `[]`. -/
def load_schedule_history : Option FileContent → Except Unit (List HistoryRecord)
  | none => .ok []
  | some (.valid rs) => .ok rs
  | some (.corrupt) => .error ()

/-- `save_schedule` (lines 89-109) as a state transition: read the
existing history (`[]` when the file is absent), append the new record,
and rewrite the whole array.  The read (`json.load` inside the read-mode
`open`, lines 97-99) strictly precedes the write-mode `open` (line 108),
so when parsing raises, the exception propagates before any write and the
file is left exactly as it was.  Returns (outcome, final file state). -/
def save_schedule (schedule : List (String × String)) (date : String) :
    Option FileContent → Except Unit Unit × Option FileContent
  | none =>
    (.ok (), some (.valid ([] ++ [{ date := date, tasks := schedule }])))
  | some (.valid rs) =>
    (.ok (), some (.valid (rs ++ [{ date := date, tasks := schedule }])))
  | some (.corrupt) => (.error (), some .corrupt)

/-! ## Spec-side format predicates

The spec describes each history record as
`{"date": "YYYY-MM-DD", "tasks": [[time_string, task_string], ...]}` with
`time_string` a 12-hour clock string with AM/PM suffix.  These predicates
state that shape. -/

/-- A 12-hour clock string with AM/PM suffix: a zero-padded hour in 1..12,
a colon, a zero-padded minute below 60, a space, and `AM` or `PM`. -/
def isTime12String (s : String) : Prop :=
  ∃ h m, 1 ≤ h ∧ h ≤ 12 ∧ m < 60 ∧
    (s = pad2 h ++ ":" ++ pad2 m ++ " " ++ "AM"
      ∨ s = pad2 h ++ ":" ++ pad2 m ++ " " ++ "PM")

/-- A `YYYY-MM-DD` date string: a four-digit year, dash, two-digit month
in 1..12, dash, two-digit day in 1..31. -/
def isDateString (s : String) : Prop :=
  ∃ y m d, y ≤ 9999 ∧ 1 ≤ m ∧ m ≤ 12 ∧ 1 ≤ d ∧ d ≤ 31
    ∧ s = pad4 y ++ "-" ++ pad2 m ++ "-" ++ pad2 d

/-! ## Helper lemmas -/

theorem formatTime12_eq (t : Nat) :
    formatTime12 t
      = pad2 (if t / 60 % 24 % 12 = 0 then 12 else t / 60 % 24 % 12) ++ ":"
        ++ pad2 (t % 60) ++ " " ++ (if t / 60 % 24 < 12 then "AM" else "PM") := rfl

theorem formatTime12_isTime12String (t : Nat) : isTime12String (formatTime12 t) := by
  have hm : t % 60 < 60 := Nat.mod_lt _ (by omega)
  refine ⟨if t / 60 % 24 % 12 = 0 then 12 else t / 60 % 24 % 12, t % 60, ?_, ?_, hm, ?_⟩
  · have : t / 60 % 24 % 12 < 12 := Nat.mod_lt _ (by omega)
    split <;> omega
  · have : t / 60 % 24 % 12 < 12 := Nat.mod_lt _ (by omega)
    split <;> omega
  · by_cases hlt : t / 60 % 24 < 12
    · left; rw [formatTime12_eq, if_pos hlt]
    · right; rw [formatTime12_eq, if_neg hlt]

theorem formatDate_isDateString (y m d : Nat) (hy : y ≤ 9999) (hm1 : 1 ≤ m)
    (hm2 : m ≤ 12) (hd1 : 1 ≤ d) (hd2 : d ≤ 31) :
    isDateString (formatDate y m d) :=
  ⟨y, m, d, hy, hm1, hm2, hd1, hd2, rfl⟩

theorem schedule_loop_timeStr (dur : String → Nat) (current : Nat) :
    ∀ (ts : List String) (cursor : Nat) (s : SlotInfo),
      s ∈ schedule_loop dur current ts cursor → s.timeStr = formatTime12 s.start := by
  intro ts
  induction ts with
  | nil => intro cursor s h; simp [schedule_loop] at h
  | cons t rest ih =>
    intro cursor s h
    rw [schedule_loop] at h
    rcases List.mem_cons.mp h with h1 | h2
    · subst h1; rfl
    · exact ih (cursor + dur t) s h2

theorem schedule_loop_notified (dur : String → Nat) (current : Nat) :
    ∀ (ts : List String) (cursor : Nat) (s : SlotInfo),
      s ∈ schedule_loop dur current ts cursor →
      (s.notified = true ↔ (s.start : Int) - 5 > (current : Int)) := by
  intro ts
  induction ts with
  | nil => intro cursor s h; simp [schedule_loop] at h
  | cons t rest ih =>
    intro cursor s h
    rw [schedule_loop] at h
    rcases List.mem_cons.mp h with h1 | h2
    · subst h1; simp
    · exact ih (cursor + dur t) s h2

theorem schedule_loop_map_task (dur : String → Nat) (current : Nat) :
    ∀ (ts : List String) (cursor : Nat),
      (schedule_loop dur current ts cursor).map SlotInfo.task = ts := by
  intro ts
  induction ts with
  | nil => intro cursor; simp [schedule_loop]
  | cons t rest ih => intro cursor; simp [schedule_loop, ih]

theorem schedule_loop_adjacent (dur : String → Nat) (current : Nat) :
    ∀ (ts : List String) (cursor i : Nat)
      (h : i + 1 < (schedule_loop dur current ts cursor).length),
      ((schedule_loop dur current ts cursor).get ⟨i + 1, h⟩).start
        = ((schedule_loop dur current ts cursor).get ⟨i, Nat.lt_of_succ_lt h⟩).start
          + dur ((schedule_loop dur current ts cursor).get ⟨i, Nat.lt_of_succ_lt h⟩).task := by
  intro ts
  induction ts with
  | nil => intro cursor i h; simp [schedule_loop] at h
  | cons t rest ih =>
    intro cursor i h
    match i with
    | 0 =>
      match rest, h with
      | [], h => simp [schedule_loop] at h
      | t2 :: rest2, _ => simp [schedule_loop]
    | Nat.succ j =>
      have h' : j + 1 < (schedule_loop dur current rest (cursor + dur t)).length := by
        simp [schedule_loop] at h; omega
      simpa [schedule_loop] using ih (cursor + dur t) j h'

theorem prioritize_foldl_urgent (choice : String → Category) :
    ∀ (tasks : List String) (acc : CategorizedTasks),
      (tasks.foldl (fun a t => addToBucket a (choice t) t) acc).urgent
        = acc.urgent ++ tasks.filter (fun t => decide (choice t = .Urgent)) := by
  intro tasks
  induction tasks with
  | nil => intro acc; simp
  | cons t rest ih =>
    intro acc
    rw [List.foldl_cons, ih]
    cases hc : choice t <;> simp [addToBucket, hc, List.filter_cons]

theorem prioritize_foldl_important (choice : String → Category) :
    ∀ (tasks : List String) (acc : CategorizedTasks),
      (tasks.foldl (fun a t => addToBucket a (choice t) t) acc).important
        = acc.important ++ tasks.filter (fun t => decide (choice t = .Important)) := by
  intro tasks
  induction tasks with
  | nil => intro acc; simp
  | cons t rest ih =>
    intro acc
    rw [List.foldl_cons, ih]
    cases hc : choice t <;> simp [addToBucket, hc, List.filter_cons]

theorem prioritize_foldl_niceToHave (choice : String → Category) :
    ∀ (tasks : List String) (acc : CategorizedTasks),
      (tasks.foldl (fun a t => addToBucket a (choice t) t) acc).niceToHave
        = acc.niceToHave ++ tasks.filter (fun t => decide (choice t = .NiceToHave)) := by
  intro tasks
  induction tasks with
  | nil => intro acc; simp
  | cons t rest ih =>
    intro acc
    rw [List.foldl_cons, ih]
    cases hc : choice t <;> simp [addToBucket, hc, List.filter_cons]

theorem prioritize_tasks_urgent (tasks : List String) (choice : String → Category) :
    (prioritize_tasks tasks choice).urgent
      = tasks.filter (fun t => decide (choice t = .Urgent)) := by
  simpa [emptyBuckets] using prioritize_foldl_urgent choice tasks emptyBuckets

theorem prioritize_tasks_important (tasks : List String) (choice : String → Category) :
    (prioritize_tasks tasks choice).important
      = tasks.filter (fun t => decide (choice t = .Important)) := by
  simpa [emptyBuckets] using prioritize_foldl_important choice tasks emptyBuckets

theorem prioritize_tasks_niceToHave (tasks : List String) (choice : String → Category) :
    (prioritize_tasks tasks choice).niceToHave
      = tasks.filter (fun t => decide (choice t = .NiceToHave)) := by
  simpa [emptyBuckets] using prioritize_foldl_niceToHave choice tasks emptyBuckets

theorem filter_three_categories_length (choice : String → Category) :
    ∀ tasks : List String,
      (tasks.filter (fun t => decide (choice t = .Urgent))).length
        + (tasks.filter (fun t => decide (choice t = .Important))).length
        + (tasks.filter (fun t => decide (choice t = .NiceToHave))).length
        = tasks.length := by
  intro tasks
  induction tasks with
  | nil => simp
  | cons t rest ih =>
    cases hc : choice t <;> simp [List.filter_cons, hc] <;> omega

/-! ## Claim theorems -/

/-- C1: for every generated schedule, the start time of slot `i+1` equals
the start time of slot `i` plus slot `i`'s duration, for every adjacent
pair of slots: the cursor starts at the anchor time and advances by each
task's duration after recording the slot. -/
theorem create_schedule_adjacent_slots (cat : CategorizedTasks)
    (dur : String → Nat) (now : Nat) (i : Nat)
    (h : i + 1 < (create_schedule_slots cat dur now).length) :
    ((create_schedule_slots cat dur now).get ⟨i + 1, h⟩).start
      = ((create_schedule_slots cat dur now).get ⟨i, Nat.lt_of_succ_lt h⟩).start
        + dur ((create_schedule_slots cat dur now).get ⟨i, Nat.lt_of_succ_lt h⟩).task :=
  schedule_loop_adjacent dur now _ _ i h

theorem create_schedule_adjacent_slots_witness :
    ((create_schedule_slots ⟨["A", "B"], [], []⟩ (fun _ => 45) 0).get
        ⟨1, by decide⟩).start
      = ((create_schedule_slots ⟨["A", "B"], [], []⟩ (fun _ => 45) 0).get
          ⟨0, by decide⟩).start
        + (fun _ => 45)
            ((create_schedule_slots ⟨["A", "B"], [], []⟩ (fun _ => 45) 0).get
              ⟨0, by decide⟩).task :=
  create_schedule_adjacent_slots ⟨["A", "B"], [], []⟩ (fun _ => 45) 0 0 (by decide)

/-- C2: the task sequence of every generated schedule is exactly the
Urgent tasks, then the Important tasks, then the Nice-to-Have tasks, each
group in original input order (a stable filter of the input). -/
theorem create_schedule_priority_order (tasks : List String)
    (choice : String → Category) (dur : String → Nat) (now : Nat) :
    (create_schedule (prioritize_tasks tasks choice) dur now).map Prod.snd
      = tasks.filter (fun t => decide (choice t = .Urgent))
        ++ tasks.filter (fun t => decide (choice t = .Important))
        ++ tasks.filter (fun t => decide (choice t = .NiceToHave)) := by
  have hmap : (create_schedule (prioritize_tasks tasks choice) dur now).map Prod.snd
      = (prioritize_tasks tasks choice).urgent
        ++ (prioritize_tasks tasks choice).important
        ++ (prioritize_tasks tasks choice).niceToHave := by
    simp [create_schedule, create_schedule_slots, List.map_map]
    simpa using schedule_loop_map_task dur now
      ((prioritize_tasks tasks choice).urgent
        ++ (prioritize_tasks tasks choice).important
        ++ (prioritize_tasks tasks choice).niceToHave)
      (now / 1440 * 1440 + 8 * 60)
  rw [hmap, prioritize_tasks_urgent, prioritize_tasks_important,
    prioritize_tasks_niceToHave]

/-- C3: for every non-empty input, categorization places every task in
exactly one bucket: each bucket is the order-preserving filter of the
input by that bucket's choice, and the bucket sizes add up to the input
size (no task lost, none duplicated). -/
theorem prioritize_tasks_partition (tasks : List String)
    (choice : String → Category) (_h : tasks ≠ []) :
    (prioritize_tasks tasks choice).urgent
        = tasks.filter (fun t => decide (choice t = .Urgent))
      ∧ (prioritize_tasks tasks choice).important
        = tasks.filter (fun t => decide (choice t = .Important))
      ∧ (prioritize_tasks tasks choice).niceToHave
        = tasks.filter (fun t => decide (choice t = .NiceToHave))
      ∧ (prioritize_tasks tasks choice).urgent.length
          + (prioritize_tasks tasks choice).important.length
          + (prioritize_tasks tasks choice).niceToHave.length
        = tasks.length := by
  refine ⟨prioritize_tasks_urgent tasks choice,
    prioritize_tasks_important tasks choice,
    prioritize_tasks_niceToHave tasks choice, ?_⟩
  rw [prioritize_tasks_urgent, prioritize_tasks_important,
    prioritize_tasks_niceToHave]
  exact filter_three_categories_length choice tasks

theorem prioritize_tasks_partition_witness :
    (["A"] : List String) ≠ []
      ∧ ((prioritize_tasks ["A"] (fun _ => .Urgent)).urgent
          = (["A"] : List String).filter (fun t => decide ((fun _ => Category.Urgent) t = .Urgent))
        ∧ (prioritize_tasks ["A"] (fun _ => .Urgent)).important
          = (["A"] : List String).filter (fun t => decide ((fun _ => Category.Urgent) t = .Important))
        ∧ (prioritize_tasks ["A"] (fun _ => .Urgent)).niceToHave
          = (["A"] : List String).filter (fun t => decide ((fun _ => Category.Urgent) t = .NiceToHave))
        ∧ (prioritize_tasks ["A"] (fun _ => .Urgent)).urgent.length
            + (prioritize_tasks ["A"] (fun _ => .Urgent)).important.length
            + (prioritize_tasks ["A"] (fun _ => .Urgent)).niceToHave.length
          = (["A"] : List String).length) :=
  ⟨by decide, prioritize_tasks_partition ["A"] (fun _ => .Urgent) (by decide)⟩

/-- C5: for input tasks `["Write report", "Call bank"]`, both Urgent,
durations 30 and 15, anchored at 08:00 AM, the schedule is exactly
`[("08:00 AM", "Write report"), ("08:30 AM", "Call bank")]`. -/
theorem scenario_write_report_call_bank :
    create_schedule
      (prioritize_tasks ["Write report", "Call bank"] (fun _ => .Urgent))
      (fun t => if t = "Write report" then 30 else 15) 0
      = [("08:00 AM", "Write report"), ("08:30 AM", "Call bank")] := by
  decide

/-- C4: for every readable prior history state, `load()` after
`append(r)` returns the previous sequence with the new record appended as
the last element, and the length grows by exactly one. -/
theorem save_then_load (schedule : List (String × String)) (date : String)
    (st : Option FileContent) (prev : List HistoryRecord)
    (h : load_schedule_history st = .ok prev) :
    (save_schedule schedule date st).1 = .ok ()
      ∧ load_schedule_history (save_schedule schedule date st).2
          = .ok (prev ++ [{ date := date, tasks := schedule }])
      ∧ (prev ++ [({ date := date, tasks := schedule } : HistoryRecord)]).length
          = prev.length + 1 := by
  match st with
  | none =>
    simp only [load_schedule_history, Except.ok.injEq] at h
    subst h
    simp [save_schedule, load_schedule_history]
  | some (.valid rs) =>
    simp only [load_schedule_history, Except.ok.injEq] at h
    subst h
    simp [save_schedule, load_schedule_history]
  | some (.corrupt) =>
    simp [load_schedule_history] at h

theorem save_then_load_witness :
    (save_schedule [("08:00 AM", "A")] "2025-01-02" none).1 = .ok ()
      ∧ load_schedule_history (save_schedule [("08:00 AM", "A")] "2025-01-02" none).2
          = .ok (([] : List HistoryRecord)
              ++ [{ date := "2025-01-02", tasks := [("08:00 AM", "A")] }])
      ∧ (([] : List HistoryRecord)
            ++ [({ date := "2025-01-02", tasks := [("08:00 AM", "A")] }
                  : HistoryRecord)]).length
          = ([] : List HistoryRecord).length + 1 :=
  save_then_load [("08:00 AM", "A")] "2025-01-02" none [] rfl

/-- C6: a notification fires for a slot if and only if the slot's reminder
time — its start minus 5 minutes — is strictly in the future relative to
the invocation time `now`; when the reminder time is in the past, no
notification attempt is made. -/
theorem notification_gate (cat : CategorizedTasks) (dur : String → Nat)
    (now : Nat) (s : SlotInfo) (h : s ∈ create_schedule_slots cat dur now) :
    s.notified = true ↔ (s.start : Int) - 5 > (now : Int) :=
  schedule_loop_notified dur now _ _ s h

theorem notification_gate_witness :
    (({ start := 480, timeStr := "08:00 AM", task := "T", notified := false }
        : SlotInfo).notified = true
      ↔ ((480 : Nat) : Int) - 5 > ((485 : Nat) : Int)) :=
  notification_gate ⟨["T"], [], []⟩ (fun _ => 45) 485
    { start := 480, timeStr := "08:00 AM", task := "T", notified := false }
    (by decide)

/-- C7: a missing history file is never an error: `load()` returns the
empty sequence, and `append` treats the history as empty and writes a
one-record log. -/
theorem missing_file_is_empty_history (schedule : List (String × String))
    (date : String) :
    load_schedule_history none = .ok []
      ∧ save_schedule schedule date none
          = (.ok (), some (.valid [{ date := date, tasks := schedule }])) :=
  ⟨rfl, rfl⟩

/-- C8: every record the save writes has the shape
`{date, tasks : [(time_string, task), ...]}` appended to the JSON array:
the date is the generation date formatted `YYYY-MM-DD` and every time
string of a generated schedule is a 12-hour clock string with AM/PM
suffix. -/
theorem saved_record_shape (cat : CategorizedTasks) (dur : String → Nat)
    (now y mo dy : Nat) (st : Option FileContent) (prev : List HistoryRecord)
    (hy : y ≤ 9999) (hm1 : 1 ≤ mo) (hm2 : mo ≤ 12) (hd1 : 1 ≤ dy) (hd2 : dy ≤ 31)
    (hst : load_schedule_history st = .ok prev) :
    (save_schedule (create_schedule cat dur now) (formatDate y mo dy) st).2
        = some (.valid (prev ++ [{ date := formatDate y mo dy,
                                   tasks := create_schedule cat dur now }]))
      ∧ isDateString (formatDate y mo dy)
      ∧ ∀ p ∈ create_schedule cat dur now, isTime12String p.1 := by
  refine ⟨?_, formatDate_isDateString y mo dy hy hm1 hm2 hd1 hd2, ?_⟩
  · match st with
    | none =>
      simp only [load_schedule_history, Except.ok.injEq] at hst
      subst hst
      simp [save_schedule]
    | some (.valid rs) =>
      simp only [load_schedule_history, Except.ok.injEq] at hst
      subst hst
      simp [save_schedule]
    | some (.corrupt) =>
      simp [load_schedule_history] at hst
  · intro p hp
    simp only [create_schedule, List.mem_map] at hp
    obtain ⟨s, hs, hps⟩ := hp
    have ht := schedule_loop_timeStr dur now _ _ s hs
    rw [← hps]
    simpa [ht] using formatTime12_isTime12String s.start

theorem saved_record_shape_witness :
    (save_schedule (create_schedule ⟨["A"], [], []⟩ (fun _ => 45) 0)
          (formatDate 2025 1 2) none).2
        = some (.valid (([] : List HistoryRecord)
            ++ [{ date := formatDate 2025 1 2,
                  tasks := create_schedule ⟨["A"], [], []⟩ (fun _ => 45) 0 }]))
      ∧ isDateString (formatDate 2025 1 2)
      ∧ isTime12String (("08:00 AM", "A") : String × String).1 := by
  have h := saved_record_shape ⟨["A"], [], []⟩ (fun _ => 45) 0 2025 1 2 none []
    (by decide) (by decide) (by decide) (by decide) (by decide) rfl
  exact ⟨h.1, h.2.1, h.2.2 ("08:00 AM", "A") (by decide)⟩

/-- C9 counterexample: no bucket-choice function can place the two
occurrences of a duplicated task string in different buckets — the radio
widget is keyed by the task string, so both occurrences read the same
choice. -/
theorem duplicate_tasks_not_independent :
    ¬ ∃ choice : String → Category,
        (prioritize_tasks ["A", "A"] choice).urgent = ["A"]
          ∧ (prioritize_tasks ["A", "A"] choice).important = ["A"] := by
  rintro ⟨c, h1, h2⟩
  cases hc : c "A" <;>
    simp [prioritize_tasks, emptyBuckets, addToBucket, hc] at h1 h2

/-- C9 (amended): the two occurrences of a duplicated task string appear
as separate entries in the categorized output and produce two separate
schedule slots, but both occurrences share one bucket (the single choice
stored under the task-string key) and one duration (the single slider
value stored under the task-string key). -/
theorem duplicate_tasks_shared_key (c : String → Category)
    (dur : String → Nat) (now : Nat) :
    (prioritize_tasks ["A", "A"] c).urgent
        = (if c "A" = .Urgent then ["A", "A"] else [])
      ∧ (prioritize_tasks ["A", "A"] c).important
        = (if c "A" = .Important then ["A", "A"] else [])
      ∧ (prioritize_tasks ["A", "A"] c).niceToHave
        = (if c "A" = .NiceToHave then ["A", "A"] else [])
      ∧ create_schedule (prioritize_tasks ["A", "A"] c) dur now
        = [(formatTime12 (now / 1440 * 1440 + 8 * 60), "A"),
           (formatTime12 (now / 1440 * 1440 + 8 * 60 + dur "A"), "A")] := by
  cases hc : c "A" <;>
    simp [prioritize_tasks, emptyBuckets, addToBucket, hc, create_schedule,
      create_schedule_slots, schedule_loop]

/-- C10: when the history file exists but is unparseable, the append
fails — and it fails only then — and the failure happens before any
write, leaving the file contents unchanged. -/
theorem corrupt_log_fails_before_write (schedule : List (String × String))
    (date : String) (st : Option FileContent) :
    save_schedule schedule date (some .corrupt) = (.error (), some .corrupt)
      ∧ ((save_schedule schedule date st).1 = .error () ↔ st = some .corrupt) := by
  refine ⟨rfl, ?_⟩
  match st with
  | none => simp [save_schedule]
  | some (.valid rs) => simp [save_schedule]
  | some (.corrupt) => simp [save_schedule]

end DayPlanner
